import Mathlib

/-!
Shallow embedding of the CopTrader cloud relay server (src/server_cloud.py):
the device session registry (`connected_clients`), the per-device command
queue (`device_commands`), the operator dispatch handler (`send_command`),
and the websocket connection lifecycle (`websocket_handler`: handshake,
backlog drain, inbound message routing, teardown).

Modelling choices:
- JSON payloads are the inductive `Json` type (mutual with `JsonList` and
  `JsonObj` for decidable equality); Python `dict.get` becomes `Json.get`
  and `Json.getD` (field lookup on objects, `none` elsewhere, matching the
  AttributeError-to-except path for non-dict payloads).
- Python dicts (`connected_clients`, keyed by the websocket object, and
  `device_commands`, keyed by device id) become insertion-ordered
  association lists with unique keys, mirroring dict iteration order,
  which `send_command` relies on when scanning for a target websocket.
- Websocket identity is an opaque connection id of type Nat; clock
  readings (isoformat strings in the code) are an abstract Nat rendered
  with `toString` where the code embeds a timestamp string in a message.
- A send over a websocket either succeeds or raises. For `send_command`
  the `sendOk` parameter says which connections accept sends; a raise
  lands in its `except` clause, which returns an HTTP 500 body built
  from the exception text (modelled by a fixed marker string). For the
  drain loop of the connection lifecycle the `sendOkAt` parameter says
  which send attempts (by position in the loop) succeed; a raise aborts
  the loop before the backlog delete, keeping the whole backlog, and
  propagates to the outer except, so the message loop never runs and
  only the `finally` teardown follows.
- Each connection lifecycle runs as one sequential unit, faithful to the
  single-threaded asyncio scheduling of the source; the handler is split
  into `registerSession`, `drainBacklog`, `routeLoop` and `teardown`
  phases so states between phases of concurrent lifecycles are
  expressible.
-/

namespace CopTrader

mutual

/-- JSON values as decoded by `json.loads` and encoded by `json.dumps`. -/
inductive Json where
  | null : Json
  | bool (b : Bool) : Json
  | num (n : Int) : Json
  | str (s : String) : Json
  | arr (elems : JsonList) : Json
  | obj (fields : JsonObj) : Json
deriving DecidableEq

/-- A JSON array body. -/
inductive JsonList where
  | nil : JsonList
  | cons (hd : Json) (tl : JsonList) : JsonList
deriving DecidableEq

/-- A JSON object body: key-value pairs in insertion order. -/
inductive JsonObj where
  | nil : JsonObj
  | cons (key : String) (val : Json) (tl : JsonObj) : JsonObj
deriving DecidableEq

end

/-- Build a JSON object body from a list of key-value pairs. -/
def JsonObj.ofList : List (String × Json) → JsonObj
  | [] => .nil
  | (k, v) :: rest => .cons k v (JsonObj.ofList rest)

/-- Build a JSON object value from a list of key-value pairs. -/
@[reducible] def Json.mkObj (l : List (String × Json)) : Json :=
  .obj (JsonObj.ofList l)

/-- First binding of a key in a JSON object body (Python dicts hold each
key once, so the first binding is the binding). -/
def JsonObj.lookup : JsonObj → String → Option Json
  | .nil, _ => none
  | .cons k v rest, k0 => if k = k0 then some v else JsonObj.lookup rest k0

/-- Field lookup on a JSON value: `data[k]` when `data` is an object with
the field. On a non-object this is `none` (in Python, `.get` on a
non-dict raises, which every caller of interest catches). -/
def Json.get : Json → String → Option Json
  | .obj fields, k => fields.lookup k
  | _, _ => none

/-- `data.get(k, d)`: field lookup with a default. -/
def Json.getD (j : Json) (k : String) (d : Json) : Json :=
  (j.get k).getD d

/-- Python truthiness of a JSON-decoded value, as used by the flashlight
branch: ON when `data.get('status')` is truthy, OFF otherwise. -/
def Json.truthy : Json → Bool
  | .null => false
  | .bool b => b
  | .num n => n ≠ 0
  | .str s => s ≠ ""
  | .arr .nil => false
  | .arr (.cons _ _) => true
  | .obj .nil => false
  | .obj (.cons _ _ _) => true

/-- Key strings used by the server. -/
def kDeviceId : String := "device_id"

def kCommand : String := "command"

def kParams : String := "params"

def kDefault : String := "default"

def kType : String := "type"

def kStatus : String := "status"

def kQueued : String := "queued"

def kSent : String := "sent"

def kMessage : String := "message"

def kQueuedMsg : String := "Device not connected, command queued"

def kError : String := "error"

def kSendFailMsg : String := "send raised"

def kBadBodyMsg : String := "request body is not an object"

def kRemoteCommand : String := "remote_command"

def kTimestamp : String := "timestamp"

def kScreenCapture : String := "screen_capture"

def kNotificationT : String := "notification"

def kFlashlight : String := "flashlight"

def kCommandResponse : String := "command_response"

def kData : String := "data"

def kPackage : String := "package"

def kTitle : String := "title"

def kText : String := "text"

def kDeviceFallback : String := "device_"

/-- Association-list lookup: first binding of the key (Python dict
lookup; keys are unique in any state the code builds). -/
def alistLookup {α β : Type} [DecidableEq α] : List (α × β) → α → Option β
  | [], _ => none
  | (k, v) :: rest, k0 => if k = k0 then some v else alistLookup rest k0

/-- Python `d[k] = v`: update in place when the key exists, else append
(dicts preserve insertion order). -/
def alistInsert {α β : Type} [DecidableEq α] : List (α × β) → α → β → List (α × β)
  | [], k0, v0 => [(k0, v0)]
  | (k, v) :: rest, k0, v0 =>
      if k = k0 then (k0, v0) :: rest else (k, v) :: alistInsert rest k0 v0

/-- Python `del d[k]` (for a unique-keyed list): drop the first binding. -/
def alistErase {α β : Type} [DecidableEq α] : List (α × β) → α → List (α × β)
  | [], _ => []
  | (k, v) :: rest, k0 => if k = k0 then rest else (k, v) :: alistErase rest k0

/-- The per-connection record stored in `connected_clients`. -/
structure SessionInfo where
  device_id : Json
  connected_at : Nat
  address : String
deriving DecidableEq

/-- One entry of a `device_commands` backlog. -/
structure QueuedCmd where
  command : Json
  params : Json
  timestamp : Nat
deriving DecidableEq

/-- The two module-level mutable maps of the server:
`connected_clients` keyed by websocket (connection id) and
`device_commands` keyed by device id. -/
structure ServerState where
  connected_clients : List (Nat × SessionInfo)
  device_commands : List (Json × List QueuedCmd)
deriving DecidableEq

/-- The Registry snapshot served by the listing endpoints: the stored
session records, in registration order. -/
def snapshot (st : ServerState) : List SessionInfo :=
  st.connected_clients.map Prod.snd

/-- The websocket scan in `send_command`: the first connection whose
stored `device_id` equals the target (dict iteration order). -/
def findDevice : List (Nat × SessionInfo) → Json → Option Nat
  | [], _ => none
  | (ws, info) :: rest, did =>
      if info.device_id = did then some ws else findDevice rest did

/-- The `remote_command` message sent to a device, for immediate dispatch
and for backlog replay alike. -/
def remoteCommandMsg (command params : Json) (ts : Nat) : Json :=
  Json.mkObj [(kType, Json.str kRemoteCommand), (kCommand, command),
              (kParams, params), (kTimestamp, Json.str (toString ts))]

/-- An HTTP response from `send_command`. -/
structure HttpResponse where
  status : Nat
  body : Json
deriving DecidableEq

/-- Everything observable about one `send_command` call: the HTTP
response, the server state it leaves behind, and the messages it pushed
onto device channels. -/
structure DispatchResult where
  response : HttpResponse
  state : ServerState
  delivered : List (Nat × Json)
deriving DecidableEq

/-- `send_command` (src/server_cloud.py lines 59-102): read the request
body, default `device_id` to the string "default", `command` to null
(absent) and `params` to the empty object; scan `connected_clients` for
the device; on a miss append the command to the backlog and answer
status queued with an explanatory message field; on a hit send a
`remote_command` message stamped with the current time and answer status
sent echoing the command; a raise from the send falls into the `except`
clause, which answers HTTP 500 with an error field and changes nothing. -/
def send_command (st : ServerState) (sendOk : Nat → Bool) (now : Nat)
    (data : Json) : DispatchResult :=
  match data with
  | .obj _ =>
    let device_id := Json.getD data kDeviceId (Json.str kDefault)
    let command := Json.getD data kCommand Json.null
    let params := Json.getD data kParams (Json.mkObj [])
    match findDevice st.connected_clients device_id with
    | none =>
      let backlog := (alistLookup st.device_commands device_id).getD []
      let st2 : ServerState :=
        { st with device_commands := alistInsert st.device_commands device_id
                    (backlog ++ [⟨command, params, now⟩]) }
      { response := ⟨200, Json.mkObj [(kStatus, Json.str kQueued),
                                      (kMessage, Json.str kQueuedMsg)]⟩,
        state := st2,
        delivered := [] }
    | some ws =>
      if sendOk ws then
        { response := ⟨200, Json.mkObj [(kStatus, Json.str kSent),
                                        (kCommand, command)]⟩,
          state := st,
          delivered := [(ws, remoteCommandMsg command params now)] }
      else
        { response := ⟨500, Json.mkObj [(kError, Json.str kSendFailMsg)]⟩,
          state := st,
          delivered := [] }
  | _ =>
      { response := ⟨500, Json.mkObj [(kError, Json.str kBadBodyMsg)]⟩,
        state := st,
        delivered := [] }

/-- The resolution of the 10-second registration wait
(asyncio.wait_for on the first frame): the timer fires first, a
non-TEXT frame arrives, a TEXT frame arrives whose payload fails
to parse as JSON, or a TEXT frame arrives carrying parsed JSON. -/
inductive FirstFrame where
  | timeoutF : FirstFrame
  | nonText : FirstFrame
  | badText : FirstFrame
  | reg (j : Json) : FirstFrame
deriving DecidableEq

/-- An inbound frame seen by the message loop after registration:
a TEXT frame with parsed JSON, a TEXT frame whose payload fails to
parse, some other non-error frame type, or an ERROR frame. -/
inductive Frame where
  | textJson (j : Json) : Frame
  | badText : Frame
  | binaryF : Frame
  | errorF : Frame
deriving DecidableEq

/-- An effect on a sink (file save or telemetry log line) produced by the
message router for one inbound frame. -/
inductive SinkEvent where
  | screenSave (device_id : Json) (raw : Option Json) (ts : Option Json) : SinkEvent
  | notify (device_id : Json) (package title text : Option Json) : SinkEvent
  | flash (device_id : Json) (statusOn : Bool) : SinkEvent
  | cmdResponse (device_id : Json) (command status : Option Json) : SinkEvent
deriving DecidableEq

/-- The type-dispatch of the message loop body (src/server_cloud.py lines
205-228) for one parsed TEXT frame: the four known type strings route to
their sink; any other or missing or non-string type falls through every
branch and produces nothing. `b64ok` says whether the base64 decode of
the screen payload succeeds; when it raises, the `except` clause swallows
it and no sink is reached. -/
def routeFrame (b64ok : Option Json → Bool) (device_id : Json) (j : Json) :
    Option SinkEvent :=
  match j.get kType with
  | some (.str t) =>
    if t = kScreenCapture then
      if b64ok (j.get kData) then
        some (.screenSave device_id (j.get kData) (j.get kTimestamp))
      else none
    else if t = kNotificationT then
      some (.notify device_id (j.get kPackage) (j.get kTitle) (j.get kText))
    else if t = kFlashlight then
      some (.flash device_id ((j.get kStatus).getD Json.null).truthy)
    else if t = kCommandResponse then
      some (.cmdResponse device_id (j.get kCommand) (j.get kStatus))
    else none
  | _ => none

/-- The `async for` message loop (src/server_cloud.py lines 202-236):
TEXT frames are parsed and routed (parse failures and unknown types are
logged and skipped, the loop continues), other frame types are skipped,
and an ERROR frame breaks the loop. Returns the sink events produced, in
order. -/
def routeLoop (b64ok : Option Json → Bool) (device_id : Json) :
    List Frame → List SinkEvent
  | [] => []
  | .textJson j :: rest =>
    match routeFrame b64ok device_id j with
    | some e => e :: routeLoop b64ok device_id rest
    | none => routeLoop b64ok device_id rest
  | .badText :: rest => routeLoop b64ok device_id rest
  | .binaryF :: rest => routeLoop b64ok device_id rest
  | .errorF :: _ => []

/-- Registration (src/server_cloud.py lines 176-183): take `device_id`
from the first frame, falling back to the string "device_" followed by
the current registry size — read before the insert — and store the
session record under this connection. Returns the chosen device id and
the updated state. -/
def registerSession (st : ServerState) (ws : Nat) (now : Nat)
    (addr : String) (reg : Json) : Json × ServerState :=
  let device_id := Json.getD reg kDeviceId
    (Json.str (kDeviceFallback ++ toString st.connected_clients.length))
  (device_id,
   { st with connected_clients :=
       alistInsert st.connected_clients ws ⟨device_id, now, addr⟩ })

/-- The outcome of the drain step: the messages that were actually sent
on the connection (a prefix of the backlog when a send raised), the
server state it leaves behind, and whether the send loop ran to
completion (false when a send raised, in which case the backlog delete
was skipped and the exception is propagating). -/
structure DrainResult where
  sent : List Json
  state : ServerState
  completed : Bool
deriving DecidableEq

/-- The send loop of the drain (src/server_cloud.py lines 190-197): one
`await ws.send_str` per queued command, in order. `sendOkAt i` says
whether the i-th send attempt succeeds; the first raising attempt aborts
the loop, so the messages actually sent are the preceding prefix.
Returns the sent messages and whether the loop completed. -/
def drainLoop (sendOkAt : Nat → Bool) : Nat → List QueuedCmd → List Json × Bool
  | _, [] => ([], true)
  | i, c :: rest =>
    if sendOkAt i then
      let r := drainLoop sendOkAt (i + 1) rest
      (remoteCommandMsg c.command c.params c.timestamp :: r.1, r.2)
    else ([], false)

/-- The drain step (src/server_cloud.py lines 187-199): if a backlog
exists for the device id, send every queued command, in order, as a
`remote_command` message carrying the stored command, params and
timestamp, then delete the backlog entry — but the delete at line 198
runs only when every send succeeded; a raise mid-loop leaves the whole
backlog in place and aborts the lifecycle stage. -/
def drainBacklog (st : ServerState) (sendOkAt : Nat → Bool)
    (device_id : Json) : DrainResult :=
  match alistLookup st.device_commands device_id with
  | some cmds =>
    let r := drainLoop sendOkAt 0 cmds
    if r.2 then
      ⟨r.1, { st with device_commands :=
                alistErase st.device_commands device_id }, true⟩
    else
      ⟨r.1, st, false⟩
  | none => ⟨[], st, true⟩

/-- The `finally` block (src/server_cloud.py lines 242-245): delete this
connection from `connected_clients` when present. The registry is keyed
by the websocket object itself, so the delete can only ever remove this
connection's own entry. -/
def teardown (st : ServerState) (ws : Nat) : ServerState :=
  { st with connected_clients := alistErase st.connected_clients ws }

/-- Everything observable about one connection lifecycle: the state after
teardown, the messages actually sent to this connection (the drained
backlog, or the prefix sent before a drain send raised), the sink events
of the message loop, the connections explicitly closed, the device id
registered (none when the handshake failed), and the states at the
observation points the lifecycle passes through (after registration,
after the drain stage, after teardown). -/
structure HandlerResult where
  finalState : ServerState
  sentToConn : List Json
  sinkEvents : List SinkEvent
  closedConns : List Nat
  registeredAs : Option Json
  trace : List ServerState
deriving DecidableEq

/-- `websocket_handler` (src/server_cloud.py lines 161-247) as one
sequential lifecycle. Timer expiry, a non-TEXT first frame, an
unparseable first frame, or a parsed first frame that is not an object
(its `.get` raises) all reach the `finally` block without registering;
the non-TEXT case first calls `ws.close()` explicitly (the other exits
close the transport by returning from the handler). A parsed object
first frame registers the session and drains the backlog; when every
drain send succeeds the message loop runs and the lifecycle tears down
when it ends, while a raise from a drain send skips the rest of the
lifecycle (backlog retained, no message loop) and falls through the
outer except straight to the same `finally` teardown. -/
def websocket_handler (st : ServerState) (ws : Nat) (now : Nat)
    (addr : String) (sendOkAt : Nat → Bool) (b64ok : Option Json → Bool)
    (first : FirstFrame) (frames : List Frame) : HandlerResult :=
  match first with
  | .timeoutF =>
    ⟨teardown st ws, [], [], [], none, [teardown st ws]⟩
  | .nonText =>
    ⟨teardown st ws, [], [], [ws], none, [teardown st ws]⟩
  | .badText =>
    ⟨teardown st ws, [], [], [], none, [teardown st ws]⟩
  | .reg j =>
    match j with
    | .obj _ =>
      let p := registerSession st ws now addr j
      let d := drainBacklog p.2 sendOkAt p.1
      let events := if d.completed then routeLoop b64ok p.1 frames else []
      let stF := teardown d.state ws
      ⟨stF, d.sent, events, [], some p.1, [p.2, d.state, stF]⟩
    | _ =>
      ⟨teardown st ws, [], [], [], none, [teardown st ws]⟩

/-! ### Association-list lemmas shared by the claim proofs -/

theorem alistLookup_insert_self {α β : Type} [DecidableEq α]
    (l : List (α × β)) (k : α) (v : β) :
    alistLookup (alistInsert l k v) k = some v := by
  induction l with
  | nil => simp [alistInsert, alistLookup]
  | cons p rest ih =>
    obtain ⟨k1, v1⟩ := p
    by_cases h : k1 = k <;> simp [alistInsert, alistLookup, h, ih]

theorem alistLookup_insert_ne {α β : Type} [DecidableEq α]
    (l : List (α × β)) (k k0 : α) (v : β) (h : k ≠ k0) :
    alistLookup (alistInsert l k v) k0 = alistLookup l k0 := by
  induction l with
  | nil => simp [alistInsert, alistLookup, h]
  | cons p rest ih =>
    obtain ⟨k1, v1⟩ := p
    by_cases h1 : k1 = k
    · subst h1
      simp [alistInsert, alistLookup, h]
    · simp [alistInsert, alistLookup, h1, ih]

theorem alistErase_of_lookup_none {α β : Type} [DecidableEq α]
    (l : List (α × β)) (k : α) (h : alistLookup l k = none) :
    alistErase l k = l := by
  induction l with
  | nil => simp [alistErase]
  | cons p rest ih =>
    obtain ⟨k1, v1⟩ := p
    by_cases h1 : k1 = k
    · simp [alistLookup, h1] at h
    · simp [alistLookup, h1] at h
      simp [alistErase, h1, ih h]

theorem alistErase_insert_fresh {α β : Type} [DecidableEq α]
    (l : List (α × β)) (k : α) (v : β) (h : alistLookup l k = none) :
    alistErase (alistInsert l k v) k = l := by
  induction l with
  | nil => simp [alistInsert, alistErase]
  | cons p rest ih =>
    obtain ⟨k1, v1⟩ := p
    by_cases h1 : k1 = k
    · simp [alistLookup, h1] at h
    · simp [alistLookup, h1] at h
      simp [alistInsert, alistErase, h1, ih h]

theorem alistLookup_erase_ne {α β : Type} [DecidableEq α]
    (l : List (α × β)) (k k0 : α) (h : k ≠ k0) :
    alistLookup (alistErase l k0) k = alistLookup l k := by
  induction l with
  | nil => simp [alistErase]
  | cons p rest ih =>
    obtain ⟨k1, v1⟩ := p
    by_cases h1 : k1 = k0
    · subst h1
      have h2 : ¬ k1 = k := fun hk => h (hk ▸ rfl)
      simp [alistErase, alistLookup, h2]
    · simp [alistErase, alistLookup, h1, ih]

theorem alistLookup_eq_none_of_not_mem {α β : Type} [DecidableEq α]
    (l : List (α × β)) (k : α) (h : k ∉ l.map Prod.fst) :
    alistLookup l k = none := by
  induction l with
  | nil => simp [alistLookup]
  | cons p rest ih =>
    obtain ⟨k1, v1⟩ := p
    rw [List.map_cons, List.mem_cons] at h
    push_neg at h
    have h1 : ¬ k1 = k := fun hk => h.1 (by simp [hk])
    simp [alistLookup, h1, ih h.2]

/-- Deleting a key from a unique-keyed list (a Python dict) leaves no
binding for it. -/
theorem alistLookup_erase_self_of_nodup {α β : Type} [DecidableEq α]
    (l : List (α × β)) (k : α) (h : (l.map Prod.fst).Nodup) :
    alistLookup (alistErase l k) k = none := by
  induction l with
  | nil => simp [alistErase, alistLookup]
  | cons p rest ih =>
    obtain ⟨k1, v1⟩ := p
    simp at h
    by_cases h1 : k1 = k
    · subst h1
      simp [alistErase]
      exact alistLookup_eq_none_of_not_mem rest k1 (by simpa using h.1)
    · simp [alistErase, alistLookup, h1, ih h.2]

/-- A connection absent from the registry makes the `finally` delete a
no-op. -/
theorem teardown_fresh (st : ServerState) (ws : Nat)
    (h : alistLookup st.connected_clients ws = none) :
    teardown st ws = st := by
  simp [teardown, alistErase_of_lookup_none _ _ h]

/-- When every send attempt succeeds, the drain send loop delivers the
whole backlog, in order, and completes. -/
theorem drainLoop_all_ok (sendOkAt : Nat → Bool)
    (hok : ∀ i, sendOkAt i = true) :
    ∀ (cs : List QueuedCmd) (i : Nat),
      drainLoop sendOkAt i cs
        = (cs.map (fun c => remoteCommandMsg c.command c.params c.timestamp),
           true) := by
  intro cs
  induction cs with
  | nil => intro i; simp [drainLoop]
  | cons c rest ih => intro i; simp [drainLoop, hok i, ih]

/-- The drain stage never touches the connection registry, whether it
completes or aborts. -/
theorem drainBacklog_connected (s : ServerState) (sendOkAt : Nat → Bool)
    (did : Json) :
    (drainBacklog s sendOkAt did).state.connected_clients
      = s.connected_clients := by
  cases h : alistLookup s.device_commands did with
  | none => simp [drainBacklog, h]
  | some cs =>
    cases h2 : (drainLoop sendOkAt 0 cs).2 <;> simp [drainBacklog, h, h2]

/-! ### Claims -/

/-- Claim C1, as frozen, fails on the code: the registry dict is keyed by
the websocket object, not the device id, so a second connection
registering the same device id does not replace the first — both session
records remain in the snapshot, and nothing on the registration path
closes a channel. Concretely, registering device id X from connections 1
and 2 leaves two sessions for X in the snapshot, not one. -/
theorem C1_counterexample :
    snapshot (registerSession
        (registerSession ⟨[], []⟩ 1 5 "a"
          (Json.mkObj [(kDeviceId, Json.str "X")])).2
        2 6 "b" (Json.mkObj [(kDeviceId, Json.str "X")])).2
      = [⟨Json.str "X", 5, "a"⟩, ⟨Json.str "X", 6, "b"⟩] := by decide

/-- Claim C1 (amended): registering the same device id from two distinct
live connections leaves BOTH sessions in the registry, each stored under
its own connection key with that device id; neither is evicted and no
channel is closed. Dispatch then targets whichever matching connection
registered first. -/
theorem C1_duplicate_registration_coexists (st : ServerState)
    (ws1 ws2 t1 t2 : Nat) (a1 a2 : String) (x : Json)
    (hne : ws1 ≠ ws2) :
    alistLookup ((registerSession
        ((registerSession st ws1 t1 a1 (Json.mkObj [(kDeviceId, x)])).2)
        ws2 t2 a2 (Json.mkObj [(kDeviceId, x)])).2).connected_clients ws1
      = some ⟨x, t1, a1⟩ ∧
    alistLookup ((registerSession
        ((registerSession st ws1 t1 a1 (Json.mkObj [(kDeviceId, x)])).2)
        ws2 t2 a2 (Json.mkObj [(kDeviceId, x)])).2).connected_clients ws2
      = some ⟨x, t2, a2⟩ := by
  have hid : ∀ (s : ServerState) (w tn : Nat) (an : String),
      (registerSession s w tn an (Json.mkObj [(kDeviceId, x)])).2.connected_clients
        = alistInsert s.connected_clients w ⟨x, tn, an⟩ := by
    intro s w tn an
    simp [registerSession, Json.getD, Json.get, Json.mkObj, JsonObj.ofList,
          JsonObj.lookup]
  constructor
  · rw [hid, hid, alistLookup_insert_ne _ _ _ _ (Ne.symm hne),
        alistLookup_insert_self]
  · rw [hid, hid, alistLookup_insert_self]

/-- Closed instance of the hypotheses and conclusion of the amended C1
theorem at connections 1 and 2 with device id X. -/
theorem C1_duplicate_registration_coexists_witness :
    alistLookup ((registerSession
        ((registerSession (⟨[], []⟩ : ServerState) 1 5 "a"
          (Json.mkObj [(kDeviceId, Json.str "X")])).2)
        2 6 "b" (Json.mkObj [(kDeviceId, Json.str "X")])).2).connected_clients 1
      = some ⟨Json.str "X", 5, "a"⟩ ∧
    alistLookup ((registerSession
        ((registerSession (⟨[], []⟩ : ServerState) 1 5 "a"
          (Json.mkObj [(kDeviceId, Json.str "X")])).2)
        2 6 "b" (Json.mkObj [(kDeviceId, Json.str "X")])).2).connected_clients 2
      = some ⟨Json.str "X", 6, "b"⟩ :=
  C1_duplicate_registration_coexists ⟨[], []⟩ 1 2 5 6 "a" "b" (Json.str "X")
    (by decide)

/-- Claim C2, as frozen, fails on the code: when the registry scan hits
but the websocket send raises, the exception lands in the `except`
clause of `send_command`, which answers HTTP 500 with an error body —
the session is NOT evicted, nothing is enqueued, and the command is
dropped. Concretely: device X is registered on connection 1 whose
channel rejects sends; dispatching to X leaves the registry and the
queue exactly as they were and returns the 500 error, not Queued. -/
theorem C2_counterexample :
    send_command ⟨[(1, ⟨Json.str "X", 0, "a"⟩)], []⟩ (fun _ => false) 7
        (Json.mkObj [(kDeviceId, Json.str "X"), (kCommand, Json.str "c")])
      = ⟨⟨500, Json.mkObj [(kError, Json.str kSendFailMsg)]⟩,
         ⟨[(1, ⟨Json.str "X", 0, "a"⟩)], []⟩, []⟩ := by decide

/-- Claim C2 (amended): for every dispatch call whose registry lookup
hits but whose send over the session channel fails, `send_command`
returns the HTTP 500 error response, the session stays in the registry,
the queue is untouched, and the command is dropped (delivered nowhere,
enqueued nowhere). -/
theorem C2_send_failure_drops_command (st : ServerState)
    (sendOk : Nat → Bool) (now ws : Nat) (fields : JsonObj)
    (hhit : findDevice st.connected_clients
      (Json.getD (Json.obj fields) kDeviceId (Json.str kDefault)) = some ws)
    (hfail : sendOk ws = false) :
    send_command st sendOk now (Json.obj fields)
      = ⟨⟨500, Json.mkObj [(kError, Json.str kSendFailMsg)]⟩, st, []⟩ := by
  simp [send_command, hhit, hfail]

/-- Closed instance of the amended C2 theorem: registry holds device X on
connection 1, every send fails, and dispatch to X returns the 500 error
leaving the state unchanged. -/
theorem C2_send_failure_drops_command_witness :
    send_command ⟨[(1, ⟨Json.str "X", 0, "a"⟩)], []⟩ (fun _ => false) 7
        (Json.obj (JsonObj.ofList [(kDeviceId, Json.str "X")]))
      = ⟨⟨500, Json.mkObj [(kError, Json.str kSendFailMsg)]⟩,
         ⟨[(1, ⟨Json.str "X", 0, "a"⟩)], []⟩, []⟩ :=
  C2_send_failure_drops_command ⟨[(1, ⟨Json.str "X", 0, "a"⟩)], []⟩
    (fun _ => false) 7 1 (JsonObj.ofList [(kDeviceId, Json.str "X")])
    (by decide) rfl

/-- Claim C3, as frozen, fails on the code in its response-shape part:
the queued response body is an object with fields status and message and
carries NO command field. Concretely, dispatching command c to the
unregistered device D yields a response body whose command lookup is
`none`. -/
theorem C3_counterexample :
    (send_command ⟨[], []⟩ (fun _ => true) 0
        (Json.mkObj [(kDeviceId, Json.str "D"),
                     (kCommand, Json.str "c")])).response.body.get kCommand
      = none := by decide

/-- Claim C3 (amended): on a registry miss, dispatch answers status
queued with an explanatory message field (no command echo) and appends
the command at the tail of that device's backlog, touching nothing
else; on a registry hit with a healthy channel, dispatch answers status
sent echoing the command, sends the `remote_command` message on that
connection's channel, and leaves the whole state (registry and queue)
unchanged — in particular an empty backlog for that device stays
empty. -/
theorem C3_dispatch_contract (st : ServerState) (sendOk : Nat → Bool)
    (now : Nat) (did cmd ps : Json) :
    (findDevice st.connected_clients did = none →
      send_command st sendOk now
          (Json.mkObj [(kDeviceId, did), (kCommand, cmd), (kParams, ps)])
        = ⟨⟨200, Json.mkObj [(kStatus, Json.str kQueued),
                             (kMessage, Json.str kQueuedMsg)]⟩,
           ⟨st.connected_clients,
            alistInsert st.device_commands did
              (((alistLookup st.device_commands did).getD [])
                ++ [⟨cmd, ps, now⟩])⟩,
           []⟩) ∧
    (∀ ws, findDevice st.connected_clients did = some ws →
      sendOk ws = true →
      send_command st sendOk now
          (Json.mkObj [(kDeviceId, did), (kCommand, cmd), (kParams, ps)])
        = ⟨⟨200, Json.mkObj [(kStatus, Json.str kSent), (kCommand, cmd)]⟩,
           st, [(ws, remoteCommandMsg cmd ps now)]⟩) := by
  have hdid : Json.getD (Json.mkObj [(kDeviceId, did), (kCommand, cmd),
      (kParams, ps)]) kDeviceId (Json.str kDefault) = did := by
    simp [Json.getD, Json.get, Json.mkObj, JsonObj.ofList, JsonObj.lookup]
  have hcmd : Json.getD (Json.mkObj [(kDeviceId, did), (kCommand, cmd),
      (kParams, ps)]) kCommand Json.null = cmd := by
    simp [Json.getD, Json.get, Json.mkObj, JsonObj.ofList, JsonObj.lookup,
          kDeviceId, kCommand]
  have hps : Json.getD (Json.mkObj [(kDeviceId, did), (kCommand, cmd),
      (kParams, ps)]) kParams (Json.mkObj []) = ps := by
    simp [Json.getD, Json.get, Json.mkObj, JsonObj.ofList, JsonObj.lookup,
          kDeviceId, kCommand, kParams]
  constructor
  · intro hmiss
    simp [send_command, hdid, hcmd, hps, hmiss]
  · intro ws hhit hok
    simp [send_command, hdid, hcmd, hps, hhit, hok]

/-- Closed instance of the amended C3 theorem, exercising both branches:
a miss for device D on the empty state queues ⟨c, empty params, time 0⟩
under D, and a hit for device X registered on the healthy connection 1
sends the `remote_command` message on channel 1. -/
theorem C3_dispatch_contract_witness :
    send_command ⟨[], []⟩ (fun _ => true) 0
        (Json.mkObj [(kDeviceId, Json.str "D"), (kCommand, Json.str "c"),
                     (kParams, Json.mkObj [])])
      = ⟨⟨200, Json.mkObj [(kStatus, Json.str kQueued),
                           (kMessage, Json.str kQueuedMsg)]⟩,
         ⟨[], [(Json.str "D", [⟨Json.str "c", Json.mkObj [], 0⟩])]⟩, []⟩ ∧
    send_command ⟨[(1, ⟨Json.str "X", 0, "a"⟩)], []⟩ (fun _ => true) 7
        (Json.mkObj [(kDeviceId, Json.str "X"), (kCommand, Json.str "c"),
                     (kParams, Json.mkObj [])])
      = ⟨⟨200, Json.mkObj [(kStatus, Json.str kSent),
                           (kCommand, Json.str "c")]⟩,
         ⟨[(1, ⟨Json.str "X", 0, "a"⟩)], []⟩,
         [(1, remoteCommandMsg (Json.str "c") (Json.mkObj []) 7)]⟩ :=
  ⟨(C3_dispatch_contract ⟨[], []⟩ (fun _ => true) 0 (Json.str "D")
      (Json.str "c") (Json.mkObj [])).1 (by decide),
   (C3_dispatch_contract ⟨[(1, ⟨Json.str "X", 0, "a"⟩)], []⟩ (fun _ => true)
      7 (Json.str "X") (Json.str "c") (Json.mkObj [])).2 1 (by decide) rfl⟩

/-- Claim C4 (confirmed): when the connecting device's channel accepts
every drain send (the raise-free run of the drain loop — on a raise the
source skips the backlog delete and aborts the replay), connecting as a
device whose backlog holds the commands cs delivers, on that connection
and before the message loop runs (hence before any later dispatch),
exactly the commands of cs in enqueue order, each as a `remote_command`
object carrying the stored command, params and timestamp; afterwards no
backlog entry for the device remains. When no backlog existed, nothing
is replayed and the backlog stays absent. The queue map is assumed
unique-keyed, as every Python dict is. -/
theorem C4_fifo_drain (st : ServerState) (ws now : Nat) (addr : String)
    (sendOkAt : Nat → Bool) (b64ok : Option Json → Bool)
    (frames : List Frame) (did : Json)
    (hnodup : (st.device_commands.map Prod.fst).Nodup)
    (hok : ∀ i, sendOkAt i = true) :
    (∀ cs, alistLookup st.device_commands did = some cs →
      (websocket_handler st ws now addr sendOkAt b64ok
          (.reg (Json.mkObj [(kDeviceId, did)])) frames).sentToConn
        = cs.map (fun c => Json.mkObj
            [(kType, Json.str kRemoteCommand), (kCommand, c.command),
             (kParams, c.params),
             (kTimestamp, Json.str (toString c.timestamp))])) ∧
    (alistLookup st.device_commands did = none →
      (websocket_handler st ws now addr sendOkAt b64ok
          (.reg (Json.mkObj [(kDeviceId, did)])) frames).sentToConn = []) ∧
    alistLookup (websocket_handler st ws now addr sendOkAt b64ok
        (.reg (Json.mkObj [(kDeviceId, did)])) frames).finalState.device_commands
      did = none := by
  have hdid : Json.getD (Json.mkObj [(kDeviceId, did)]) kDeviceId
      (Json.str (kDeviceFallback ++ toString st.connected_clients.length))
        = did := by
    simp [Json.getD, Json.get, Json.mkObj, JsonObj.ofList, JsonObj.lookup]
  have hloop := drainLoop_all_ok sendOkAt hok
  refine ⟨?_, ?_, ?_⟩
  · intro cs hcs
    simp [websocket_handler, registerSession, drainBacklog, hdid, hcs,
          hloop, remoteCommandMsg]
  · intro hnone
    simp [websocket_handler, registerSession, drainBacklog, hdid, hnone]
  · cases hq : alistLookup st.device_commands did with
    | some cs =>
      simp [websocket_handler, registerSession, drainBacklog, teardown,
            hdid, hq, hloop]
      exact alistLookup_erase_self_of_nodup _ _ hnodup
    | none =>
      simp [websocket_handler, registerSession, drainBacklog, teardown,
            hdid, hq]

/-- Closed instance of the C4 drain law: a backlog of c1, c2, c3 for
device D is replayed on connect in that order with the stored
timestamps 1, 2, 3, and no backlog entry for D remains. -/
theorem C4_fifo_drain_witness :
    (websocket_handler
        ⟨[], [(Json.str "D",
               [⟨Json.str "c1", Json.mkObj [], 1⟩,
                ⟨Json.str "c2", Json.mkObj [], 2⟩,
                ⟨Json.str "c3", Json.mkObj [], 3⟩])]⟩
        1 9 "a" (fun _ => true) (fun _ => true)
        (.reg (Json.mkObj [(kDeviceId, Json.str "D")])) []).sentToConn
      = [Json.mkObj [(kType, Json.str kRemoteCommand),
                     (kCommand, Json.str "c1"), (kParams, Json.mkObj []),
                     (kTimestamp, Json.str (toString 1))],
         Json.mkObj [(kType, Json.str kRemoteCommand),
                     (kCommand, Json.str "c2"), (kParams, Json.mkObj []),
                     (kTimestamp, Json.str (toString 2))],
         Json.mkObj [(kType, Json.str kRemoteCommand),
                     (kCommand, Json.str "c3"), (kParams, Json.mkObj []),
                     (kTimestamp, Json.str (toString 3))]] ∧
    alistLookup (websocket_handler
        ⟨[], [(Json.str "D",
               [⟨Json.str "c1", Json.mkObj [], 1⟩,
                ⟨Json.str "c2", Json.mkObj [], 2⟩,
                ⟨Json.str "c3", Json.mkObj [], 3⟩])]⟩
        1 9 "a" (fun _ => true) (fun _ => true)
        (.reg (Json.mkObj [(kDeviceId, Json.str "D")])) []).finalState.device_commands
      (Json.str "D") = none := by
  have h := C4_fifo_drain
    ⟨[], [(Json.str "D",
           [⟨Json.str "c1", Json.mkObj [], 1⟩,
            ⟨Json.str "c2", Json.mkObj [], 2⟩,
            ⟨Json.str "c3", Json.mkObj [], 3⟩])]⟩
    1 9 "a" (fun _ => true) (fun _ => true) [] (Json.str "D") (by decide)
    (fun _ => rfl)
  refine ⟨?_, h.2.2⟩
  rw [h.1 [⟨Json.str "c1", Json.mkObj [], 1⟩, ⟨Json.str "c2", Json.mkObj [], 2⟩,
           ⟨Json.str "c3", Json.mkObj [], 3⟩] (by decide)]
  decide

/-- Claim C5 (confirmed): when the registration wait times out, or the
first frame is not a TEXT frame, or its payload fails to parse, the
lifecycle produces no registration, passes through no state in which the
connection is registered, and leaves the server state untouched; the
connection terminates (the non-TEXT case closes the socket explicitly,
the others close it by returning from the handler). -/
theorem C5_handshake_failure_never_registers (st : ServerState)
    (ws now : Nat) (addr : String) (sendOkAt : Nat → Bool)
    (b64ok : Option Json → Bool) (frames : List Frame)
    (hfresh : alistLookup st.connected_clients ws = none) :
    websocket_handler st ws now addr sendOkAt b64ok .timeoutF frames
      = ⟨st, [], [], [], none, [st]⟩ ∧
    websocket_handler st ws now addr sendOkAt b64ok .nonText frames
      = ⟨st, [], [], [ws], none, [st]⟩ ∧
    websocket_handler st ws now addr sendOkAt b64ok .badText frames
      = ⟨st, [], [], [], none, [st]⟩ := by
  have ht := teardown_fresh st ws hfresh
  exact ⟨by simp [websocket_handler, ht], by simp [websocket_handler, ht],
         by simp [websocket_handler, ht]⟩

/-- Closed instance of C5 on the empty server state for connection 1:
the three handshake-failure outcomes leave the state empty and register
nothing. -/
theorem C5_handshake_failure_never_registers_witness :
    websocket_handler ⟨[], []⟩ 1 0 "a" (fun _ => true) (fun _ => true)
        .timeoutF []
      = ⟨⟨[], []⟩, [], [], [], none, [⟨[], []⟩]⟩ ∧
    websocket_handler ⟨[], []⟩ 1 0 "a" (fun _ => true) (fun _ => true)
        .nonText []
      = ⟨⟨[], []⟩, [], [], [1], none, [⟨[], []⟩]⟩ ∧
    websocket_handler ⟨[], []⟩ 1 0 "a" (fun _ => true) (fun _ => true)
        .badText []
      = ⟨⟨[], []⟩, [], [], [], none, [⟨[], []⟩]⟩ :=
  C5_handshake_failure_never_registers ⟨[], []⟩ 1 0 "a" (fun _ => true)
    (fun _ => true) [] (by decide)

/-- Claim C6 (confirmed): in the message loop, an unparseable TEXT frame,
a parsed frame with no type field, and a parsed frame with an unknown
type string are all skipped with no sink effect and without ending the
loop; a well-formed flashlight frame arriving after them is still routed
to its telemetry event, and the loop goes on processing the remaining
frames. -/
theorem C6_malformed_frame_resilience (b64ok : Option Json → Bool)
    (did : Json) (t : String) (rest : List Frame)
    (h1 : t ≠ kScreenCapture) (h2 : t ≠ kNotificationT)
    (h3 : t ≠ kFlashlight) (h4 : t ≠ kCommandResponse) :
    routeLoop b64ok did
        (Frame.badText
          :: Frame.textJson (Json.mkObj [])
          :: Frame.textJson (Json.mkObj [(kType, Json.str t)])
          :: Frame.textJson (Json.mkObj [(kType, Json.str kFlashlight),
                                         (kStatus, Json.bool true)])
          :: rest)
      = SinkEvent.flash did true :: routeLoop b64ok did rest := by
  have e1 : ¬ (kFlashlight = kScreenCapture) := by decide
  have e2 : ¬ (kFlashlight = kNotificationT) := by decide
  have e3 : ¬ (kType = kStatus) := by decide
  simp [routeLoop, routeFrame, Json.get, Json.getD, Json.truthy,
        JsonObj.ofList, JsonObj.lookup, h1, h2, h3, h4, e1, e2, e3]

/-- Closed instance of C6: after an unparseable frame, a typeless frame
and an unknown type unknown_xyz, a valid flashlight frame from the same
connection still produces exactly its telemetry event. -/
theorem C6_malformed_frame_resilience_witness :
    routeLoop (fun _ => true) (Json.str "D")
        [Frame.badText,
         Frame.textJson (Json.mkObj []),
         Frame.textJson (Json.mkObj [(kType, Json.str "unknown_xyz")]),
         Frame.textJson (Json.mkObj [(kType, Json.str kFlashlight),
                                     (kStatus, Json.bool true)])]
      = [SinkEvent.flash (Json.str "D") true] := by
  have h := C6_malformed_frame_resilience (fun _ => true) (Json.str "D")
    "unknown_xyz" [] (by decide) (by decide) (by decide) (by decide)
  rw [h]
  decide

/-- Claim C7 (confirmed): every lifecycle exit runs the one `finally`
teardown, and because the registry is keyed by the connection itself the
teardown can only remove this connection's own entry: for a fresh
connection the final registry equals the initial one entry for entry,
and a stale teardown for connection ws never disturbs the entry of any
other connection — in particular not a newer session registered under
the same device id. -/
theorem C7_teardown_identity_guard (st : ServerState) (ws now : Nat)
    (addr : String) (sendOkAt : Nat → Bool) (b64ok : Option Json → Bool)
    (first : FirstFrame) (frames : List Frame)
    (hfresh : alistLookup st.connected_clients ws = none) :
    (websocket_handler st ws now addr sendOkAt b64ok first
        frames).finalState.connected_clients
      = st.connected_clients ∧
    (∀ (st2 : ServerState) (ws2 : Nat), ws2 ≠ ws →
      alistLookup (teardown st2 ws).connected_clients ws2
        = alistLookup st2.connected_clients ws2) := by
  constructor
  · have herase := alistErase_of_lookup_none _ _ hfresh
    cases first with
    | timeoutF => simp [websocket_handler, teardown, herase]
    | nonText => simp [websocket_handler, teardown, herase]
    | badText => simp [websocket_handler, teardown, herase]
    | reg j =>
      cases j with
      | obj fields =>
        simp only [websocket_handler, teardown]
        rw [drainBacklog_connected]
        simp [registerSession]
        exact alistErase_insert_fresh _ _ _ hfresh
      | null => simp [websocket_handler, teardown, herase]
      | bool b => simp [websocket_handler, teardown, herase]
      | num n => simp [websocket_handler, teardown, herase]
      | str s => simp [websocket_handler, teardown, herase]
      | arr elems => simp [websocket_handler, teardown, herase]
  · intro st2 ws2 hne
    exact alistLookup_erase_ne _ _ _ hne

/-- Closed instance of C7: connection 1 runs a whole lifecycle
registering device id X while connection 2 already holds a session for
the same X; afterwards the registry still holds exactly the connection-2
session, and a stale teardown for connection 1 against a registry
holding both connections leaves the connection-2 entry in place. -/
theorem C7_teardown_identity_guard_witness :
    (websocket_handler ⟨[(2, ⟨Json.str "X", 0, "b"⟩)], []⟩ 1 5 "a"
        (fun _ => true) (fun _ => true)
        (.reg (Json.mkObj [(kDeviceId, Json.str "X")]))
        []).finalState.connected_clients
      = [(2, ⟨Json.str "X", 0, "b"⟩)] ∧
    alistLookup (teardown ⟨[(1, ⟨Json.str "X", 5, "a"⟩),
        (2, ⟨Json.str "X", 0, "b"⟩)], []⟩ 1).connected_clients 2
      = some ⟨Json.str "X", 0, "b"⟩ := by
  have h := C7_teardown_identity_guard ⟨[(2, ⟨Json.str "X", 0, "b"⟩)], []⟩
    1 5 "a" (fun _ => true) (fun _ => true)
    (.reg (Json.mkObj [(kDeviceId, Json.str "X")])) [] (by decide)
  refine ⟨h.1, ?_⟩
  rw [h.2 ⟨[(1, ⟨Json.str "X", 5, "a"⟩), (2, ⟨Json.str "X", 0, "b"⟩)], []⟩ 2
    (by decide)]
  decide

/-- Claim C8 (confirmed): a registration message with no device_id field
gets the synthesized identifier composed of the device_ fallback string
and the registry size read BEFORE the new session is inserted, and the
session is stored under that identifier. -/
theorem C8_fallback_identifier (st : ServerState) (ws now : Nat)
    (addr : String) (sendOkAt : Nat → Bool) (b64ok : Option Json → Bool)
    (frames : List Frame) (fields : JsonObj)
    (hmissing : fields.lookup kDeviceId = none) :
    (websocket_handler st ws now addr sendOkAt b64ok
        (.reg (Json.obj fields)) frames).registeredAs
      = some (Json.str
          (kDeviceFallback ++ toString st.connected_clients.length)) ∧
    alistLookup ((registerSession st ws now addr
        (Json.obj fields)).2).connected_clients ws
      = some ⟨Json.str
          (kDeviceFallback ++ toString st.connected_clients.length),
          now, addr⟩ := by
  have hdid : Json.getD (Json.obj fields) kDeviceId
      (Json.str (kDeviceFallback ++ toString st.connected_clients.length))
        = Json.str (kDeviceFallback ++ toString st.connected_clients.length) := by
    simp [Json.getD, Json.get, hmissing]
  constructor
  · simp [websocket_handler, registerSession, hdid]
  · simp [registerSession, hdid, alistLookup_insert_self]

/-- Closed instance of C8: with two sessions already registered, a
registration frame that is an empty object is assigned the identifier
device_2 — the registry size before the insert, not after it. -/
theorem C8_fallback_identifier_witness :
    (websocket_handler ⟨[(5, ⟨Json.str "A", 0, "x"⟩),
        (6, ⟨Json.str "B", 0, "y"⟩)], []⟩ 1 7 "a" (fun _ => true)
        (fun _ => true) (.reg (Json.obj .nil)) []).registeredAs
      = some (Json.str "device_2") ∧
    alistLookup ((registerSession ⟨[(5, ⟨Json.str "A", 0, "x"⟩),
        (6, ⟨Json.str "B", 0, "y"⟩)], []⟩ 1 7 "a"
        (Json.obj .nil)).2).connected_clients 1
      = some ⟨Json.str "device_2", 7, "a"⟩ := by
  have h := C8_fallback_identifier ⟨[(5, ⟨Json.str "A", 0, "x"⟩),
    (6, ⟨Json.str "B", 0, "y"⟩)], []⟩ 1 7 "a" (fun _ => true)
    (fun _ => true) [] .nil (by decide)
  exact ⟨by rw [h.1]; decide, by rw [h.2]; decide⟩

/-- Claim C9 (confirmed): a dispatch request body that is an object never
fails for missing fields — a missing device_id falls back to the literal
key default, a missing command is carried as null, a missing params as
the empty object, and the request is queued under those defaults on a
miss or sent under them on a healthy hit. -/
theorem C9_lenient_dispatch_defaults (st : ServerState)
    (sendOk : Nat → Bool) (now : Nat) (fields : JsonObj)
    (h1 : fields.lookup kDeviceId = none)
    (h2 : fields.lookup kCommand = none)
    (h3 : fields.lookup kParams = none) :
    (findDevice st.connected_clients (Json.str kDefault) = none →
      send_command st sendOk now (Json.obj fields)
        = ⟨⟨200, Json.mkObj [(kStatus, Json.str kQueued),
                             (kMessage, Json.str kQueuedMsg)]⟩,
           ⟨st.connected_clients,
            alistInsert st.device_commands (Json.str kDefault)
              (((alistLookup st.device_commands (Json.str kDefault)).getD [])
                ++ [⟨Json.null, Json.mkObj [], now⟩])⟩,
           []⟩) ∧
    (∀ ws, findDevice st.connected_clients (Json.str kDefault) = some ws →
      sendOk ws = true →
      send_command st sendOk now (Json.obj fields)
        = ⟨⟨200, Json.mkObj [(kStatus, Json.str kSent),
                             (kCommand, Json.null)]⟩,
           st, [(ws, remoteCommandMsg Json.null (Json.mkObj []) now)]⟩) := by
  have hd : Json.getD (Json.obj fields) kDeviceId (Json.str kDefault)
      = Json.str kDefault := by
    simp [Json.getD, Json.get, h1]
  have hc : Json.getD (Json.obj fields) kCommand Json.null = Json.null := by
    simp [Json.getD, Json.get, h2]
  have hp : Json.getD (Json.obj fields) kParams (Json.mkObj [])
      = Json.mkObj [] := by
    simp [Json.getD, Json.get, h3]
  constructor
  · intro hmiss
    simp [send_command, hd, hc, hp, hmiss]
  · intro ws hhit hok
    simp [send_command, hd, hc, hp, hhit, hok]

/-- Closed instance of C9, both branches: the empty-object request on the
empty state queues a null command with empty params under the key
default, and the same request when a device registered as default is
connected on the healthy connection 3 sends the null command there. -/
theorem C9_lenient_dispatch_defaults_witness :
    send_command ⟨[], []⟩ (fun _ => true) 4 (Json.obj .nil)
      = ⟨⟨200, Json.mkObj [(kStatus, Json.str kQueued),
                           (kMessage, Json.str kQueuedMsg)]⟩,
         ⟨[], [(Json.str kDefault, [⟨Json.null, Json.mkObj [], 4⟩])]⟩,
         []⟩ ∧
    send_command ⟨[(3, ⟨Json.str kDefault, 0, "z"⟩)], []⟩ (fun _ => true) 4
        (Json.obj .nil)
      = ⟨⟨200, Json.mkObj [(kStatus, Json.str kSent),
                           (kCommand, Json.null)]⟩,
         ⟨[(3, ⟨Json.str kDefault, 0, "z"⟩)], []⟩,
         [(3, remoteCommandMsg Json.null (Json.mkObj []) 4)]⟩ :=
  ⟨(C9_lenient_dispatch_defaults ⟨[], []⟩ (fun _ => true) 4 .nil
      rfl rfl rfl).1 (by decide),
   (C9_lenient_dispatch_defaults ⟨[(3, ⟨Json.str kDefault, 0, "z"⟩)], []⟩
      (fun _ => true) 4 .nil rfl rfl rfl).2 3 (by decide) rfl⟩

/-- Claim C10 (confirmed): a command queued at dispatch time t1 for an
offline device is replayed at connect time t2 — when the connecting
channel accepts the drain sends, the raise-free run of the drain loop —
carrying its command, params and the enqueue timestamp t1 unchanged,
while a command sent immediately on a registry hit over a healthy
channel at time t2 carries the send timestamp t2. -/
theorem C10_timestamp_provenance (st : ServerState) (sendOk : Nat → Bool)
    (t1 t2 ws2 : Nat) (addr : String) (sendOkAt : Nat → Bool)
    (b64ok : Option Json → Bool) (frames : List Frame) (did cmd ps : Json)
    (hmiss : findDevice st.connected_clients did = none)
    (hq : alistLookup st.device_commands did = none)
    (hdrain : ∀ i, sendOkAt i = true) :
    ((websocket_handler
        (send_command st sendOk t1 (Json.mkObj [(kDeviceId, did),
          (kCommand, cmd), (kParams, ps)])).state
        ws2 t2 addr sendOkAt b64ok (.reg (Json.mkObj [(kDeviceId, did)]))
        frames).sentToConn
      = [Json.mkObj [(kType, Json.str kRemoteCommand), (kCommand, cmd),
                     (kParams, ps),
                     (kTimestamp, Json.str (toString t1))]]) ∧
    (∀ (st2 : ServerState) (w : Nat),
      findDevice st2.connected_clients did = some w → sendOk w = true →
      (send_command st2 sendOk t2 (Json.mkObj [(kDeviceId, did),
          (kCommand, cmd), (kParams, ps)])).delivered
        = [(w, Json.mkObj [(kType, Json.str kRemoteCommand),
                           (kCommand, cmd), (kParams, ps),
                           (kTimestamp, Json.str (toString t2))])]) := by
  have hdidF : Json.getD (Json.mkObj [(kDeviceId, did), (kCommand, cmd),
      (kParams, ps)]) kDeviceId (Json.str kDefault) = did := by
    simp [Json.getD, Json.get, Json.mkObj, JsonObj.ofList, JsonObj.lookup]
  have hcmdF : Json.getD (Json.mkObj [(kDeviceId, did), (kCommand, cmd),
      (kParams, ps)]) kCommand Json.null = cmd := by
    simp [Json.getD, Json.get, Json.mkObj, JsonObj.ofList, JsonObj.lookup,
          kDeviceId, kCommand]
  have hpsF : Json.getD (Json.mkObj [(kDeviceId, did), (kCommand, cmd),
      (kParams, ps)]) kParams (Json.mkObj []) = ps := by
    simp [Json.getD, Json.get, Json.mkObj, JsonObj.ofList, JsonObj.lookup,
          kDeviceId, kCommand, kParams]
  have hdidR : ∀ d, Json.getD (Json.mkObj [(kDeviceId, did)]) kDeviceId d
      = did := by
    intro d
    simp [Json.getD, Json.get, Json.mkObj, JsonObj.ofList, JsonObj.lookup]
  have hloop := drainLoop_all_ok sendOkAt hdrain
  constructor
  · simp [send_command, hdidF, hcmdF, hpsF, hmiss, hq, websocket_handler,
          registerSession, drainBacklog, hdidR, alistLookup_insert_self,
          hloop, remoteCommandMsg]
  · intro st2 w hhit hok
    simp [send_command, hdidF, hcmdF, hpsF, hhit, hok, remoteCommandMsg]

/-- Closed instance of C10: dispatching command c to the offline device D
at time 3 and letting D connect at time 9 replays the message stamped 3,
while dispatching the same command at time 9 to D connected on the
healthy connection 1 delivers a message stamped 9. -/
theorem C10_timestamp_provenance_witness :
    ((websocket_handler
        (send_command ⟨[], []⟩ (fun _ => true) 3
          (Json.mkObj [(kDeviceId, Json.str "D"), (kCommand, Json.str "c"),
                       (kParams, Json.mkObj [])])).state
        1 9 "a" (fun _ => true) (fun _ => true)
        (.reg (Json.mkObj [(kDeviceId, Json.str "D")])) []).sentToConn
      = [Json.mkObj [(kType, Json.str kRemoteCommand),
                     (kCommand, Json.str "c"), (kParams, Json.mkObj []),
                     (kTimestamp, Json.str (toString 3))]]) ∧
    ((send_command ⟨[(1, ⟨Json.str "D", 0, "a"⟩)], []⟩ (fun _ => true) 9
        (Json.mkObj [(kDeviceId, Json.str "D"), (kCommand, Json.str "c"),
                     (kParams, Json.mkObj [])])).delivered
      = [(1, Json.mkObj [(kType, Json.str kRemoteCommand),
                         (kCommand, Json.str "c"), (kParams, Json.mkObj []),
                         (kTimestamp, Json.str (toString 9))])]) := by
  have h := C10_timestamp_provenance ⟨[], []⟩ (fun _ => true) 3 9 1 "a"
    (fun _ => true) (fun _ => true) [] (Json.str "D") (Json.str "c")
    (Json.mkObj []) (by decide) (by decide) (fun _ => rfl)
  exact ⟨h.1, h.2 ⟨[(1, ⟨Json.str "D", 0, "a"⟩)], []⟩ 1 (by decide) rfl⟩

end CopTrader
